import Mathlib

/-!
Verification of the client-side behaviors in `src/main.js` (site enhancement
script): rate-limiting wrappers (`debounce`, `throttle`), safe DOM query
helpers, the throttled scroll handler, mobile-menu dismissal, the lazy image
loader, the `closest` polyfill, `scrollToTop`, and `getScreenSize`.

Modelling conventions:
- Timer-based code (`setTimeout`) is modelled with explicit timestamps (`Nat`,
  milliseconds): a timer scheduled for delay `d` at time `t` is due at `t + d`,
  and is considered to have fired before any event whose timestamp is at or
  past the due time.
- A sequence of wrapper invocations is a list of timestamped calls, processed
  in order by an explicit state-passing runner; the runner returns the list of
  deliveries made to the wrapped function `fn`.
- DOM `classList` is an ordered token list: `remove` filters the token out,
  `add` appends it when absent.
-/

namespace SiteOficial

/-! ## throttle (src/main.js lines 14-25)

`throttle(func, limit)` keeps a boolean gate `inThrottle`. A call while the
gate is open invokes `func.apply(context, args)` synchronously, closes the
gate, and schedules `setTimeout(() => inThrottle = false, limit)`. Calls while
the gate is closed are dropped. State: `none` = gate open (`inThrottle`
falsy); `some d` = gate closed with the reopening timer due at time `d`. -/

/-- A call to the throttled wrapper: its timestamp, the caller's `this`
context, and the argument payload. -/
structure TCall (γ α : Type) where
  time : Nat
  ctx : γ
  args : α
deriving DecidableEq

/-- One call processed by the throttled wrapper. The reopening timer fires
first when due (`d ≤ c.time`); then, with the gate open, `func` is invoked
with the call's context and arguments and the gate closes until
`c.time + limit`. Returns the new gate state and the delivery, if any. -/
def throttleStep {γ α : Type} (limit : Nat) (st : Option Nat) (c : TCall γ α) :
    Option Nat × Option (TCall γ α) :=
  match st with
  | some d =>
    if d ≤ c.time then (some (c.time + limit), some c)
    else (some d, none)
  | none => (some (c.time + limit), some c)

/-- Run a list of timestamped calls through the throttled wrapper, collecting
the deliveries made to the wrapped function. -/
def throttleRun {γ α : Type} (limit : Nat) (st : Option Nat) :
    List (TCall γ α) → List (TCall γ α)
  | [] => []
  | c :: cs =>
    match throttleStep limit st c with
    | (st2, some i) => i :: throttleRun limit st2 cs
    | (st2, none) => throttleRun limit st2 cs

/-! ## debounce (src/main.js lines 2-12)

`debounce(func, wait)` keeps one pending timeout. Each call clears the
pending timeout and schedules `later` (which invokes `func(...args)` with the
call's arguments) for `wait` later. State: `some (d, a)` = a pending timeout
due at time `d` delivering arguments `a`; `none` = nothing pending. -/

/-- A call to the debounced wrapper: timestamp and argument payload (the
debounced wrapper does not preserve the caller's context). -/
structure DCall (α : Type) where
  time : Nat
  args : α
deriving DecidableEq

/-- One call processed by the debounced wrapper: if the pending timeout was
already due (`p.1 ≤ c.time`) it has fired, delivering its arguments;
otherwise `clearTimeout` cancels it. Either way a new timeout is scheduled
for `c.time + wait` carrying this call's arguments. Returns the new pending
state and the deliveries (time, arguments). -/
def debounceStep {α : Type} (wait : Nat) (pending : Option (Nat × α)) (c : DCall α) :
    Option (Nat × α) × List (Nat × α) :=
  match pending with
  | some p =>
    if p.1 ≤ c.time then (some (c.time + wait, c.args), [p])
    else (some (c.time + wait, c.args), [])
  | none => (some (c.time + wait, c.args), [])

/-- Run a list of timestamped calls through the debounced wrapper and then
let any still-pending timeout fire; collects the deliveries made to the
wrapped function as (time, arguments) pairs. -/
def debounceRun {α : Type} (wait : Nat) (pending : Option (Nat × α)) :
    List (DCall α) → List (Nat × α)
  | [] =>
    match pending with
    | some p => [p]
    | none => []
  | c :: cs =>
    match debounceStep wait pending c with
    | (p2, fired) => fired ++ debounceRun wait p2 cs

/-! ## classList operations

DOM `classList` modelled as an ordered token list. `remove` deletes the
token wherever it occurs; `add` appends it when absent. -/

/-- Model of `classList.add(t)`. -/
def classListAdd (cls : List String) (t : String) : List String :=
  if t ∈ cls then cls else cls ++ [t]

/-- Model of `classList.remove(t)`. -/
def classListRemove (cls : List String) (t : String) : List String :=
  cls.filter (fun c => c ≠ t)

/-! ## Scroll handler (src/main.js lines 79-102)

The throttled scroll listener reads `window.scrollY` once and applies two
independent threshold rules to the header's inline style and the
scroll-to-top button's class list. -/

/-- The header's inline style fields set by the scroll handler. -/
structure HeaderStyle where
  background : String
  backdropFilter : String
  webkitBackdropFilter : String
deriving DecidableEq

/-- The DOM state touched by the scroll handler: header style and the
scroll-to-top button's class list. -/
structure ScrollUI where
  header : HeaderStyle
  scrollTopClasses : List String
deriving DecidableEq

/-- The elevated header background gradient (set when scrollY > 100). -/
def elevatedBackground : String :=
  "linear-gradient(90deg, rgba(242, 145, 182, 0.95), rgba(228, 183, 207, 0.95))"

/-- The base header background gradient (set when scrollY ≤ 100). -/
def baseBackground : String :=
  "linear-gradient(90deg, #f291b6, #e4b7cf)"

/-- Body of the throttled scroll listener: elevated header style when
`scrollY > 100`, base style otherwise; the `visible` class added to the
scroll-to-top button when `scrollY > 500`, removed otherwise. -/
def handleScroll (scrollY : Nat) (ui : ScrollUI) : ScrollUI :=
  { header :=
      if 100 < scrollY then ⟨elevatedBackground, "blur(10px)", "blur(10px)"⟩
      else ⟨baseBackground, "none", "none"⟩
  , scrollTopClasses :=
      if 500 < scrollY then classListAdd ui.scrollTopClasses "visible"
      else classListRemove ui.scrollTopClasses "visible" }

/-- A sample page state used to instantiate the scroll-handler theorem. -/
def ui0 : ScrollUI := ⟨⟨baseBackground, "none", "none"⟩, ["scroll-top"]⟩

/-! ## Lazy image loader (src/main.js lines 153-178)

The IntersectionObserver callback: for an intersecting entry, read
`img.dataset.src` (the `data-src` attribute); when it is truthy (present and
nonempty), copy it to `img.src`, remove the `lazy` class, and
`observer.unobserve(img)`. Observer semantics: entries are delivered only
while the element is observed. -/

/-- An image as seen by the lazy loader: its `data-src` attribute (`none`
when absent), its live `src` attribute, its class list, and whether the
observer is currently observing it. -/
structure LazyImg where
  dataSrc : Option String
  src : Option String
  classes : List String
  observed : Bool
deriving DecidableEq

/-- One observer entry for an image. Entries are only delivered while the
image is observed; the callback acts only on intersecting entries whose
`dataset.src` is truthy (present and nonempty). -/
def onIntersect (img : LazyImg) (isIntersecting : Bool) : LazyImg :=
  if img.observed then
    if isIntersecting then
      match img.dataSrc with
      | some s =>
        if s ≠ "" then
          { img with src := some s
                   , classes := classListRemove img.classes "lazy"
                   , observed := false }
        else img
      | none => img
    else img
  else img

/-- Process a sequence of observer entries (intersection flags) for one
image. -/
def observeRun (img : LazyImg) : List Bool → LazyImg
  | [] => img
  | e :: es => observeRun (onIntersect img e) es

/-- An observed image whose `data-src` attribute is present but empty — the
edge case distinguishing the claim from the code. -/
def emptyLazyImg : LazyImg := ⟨some "", none, ["lazy"], true⟩

/-- A sample observed lazy image used to instantiate the upgrade theorem. -/
def img0 : LazyImg := ⟨some "hero.jpg", none, ["lazy", "photo"], true⟩

/-! ## Safe query helpers (src/main.js lines 37-54)

`document.querySelector` / `querySelectorAll` throw a SyntaxError on a
syntactically invalid selector; modelled as `Except` with the error
message. The safe wrappers catch, log a warning, and degrade to
`null` / an empty collection. The second component of each result is the
list of `console.warn` messages emitted. -/

/-- The document's raw query interface, parametrised by the node type.
A `.error` result models the underlying query throwing. -/
structure Doc (Node : Type) where
  query : String → Except String (Option Node)
  queryAll : String → Except String (List Node)

/-- Model of `safeSelect`: returns the query result, or `null` plus a
logged warning when the selector is invalid. -/
def safeSelect {Node : Type} (doc : Doc Node) (selector : String) :
    Option Node × List String :=
  match doc.query selector with
  | .ok r => (r, [])
  | .error _ => (none, ["Invalid selector: " ++ selector])

/-- Model of `safeSelectAll`: returns the query result, or an empty
collection plus a logged warning when the selector is invalid. -/
def safeSelectAll {Node : Type} (doc : Doc Node) (selector : String) :
    List Node × List String :=
  match doc.queryAll selector with
  | .ok r => (r, [])
  | .error _ => ([], ["Invalid selector: " ++ selector])

/-! ## Anchor click handler (src/main.js lines 59-73) -/

/-- Options passed to `scrollIntoView`. -/
structure ScrollIntoViewOpts where
  behavior : String
  block : String
deriving DecidableEq

/-- Observable outcome of one click on an in-page anchor: whether default
navigation was suppressed, the smooth-scroll performed (target node and
options), and any warnings logged. -/
structure AnchorClickResult (Node : Type) where
  defaultPrevented : Bool
  scrolled : Option (Node × ScrollIntoViewOpts)
  warnings : List String

/-- Body of the anchor click listener: `e.preventDefault()` first, then
resolve the href via `safeSelect`; when a target is found, call
`scrollIntoView` with behavior "smooth" and block "start"; otherwise do
nothing further. -/
def anchorClickHandler {Node : Type} (doc : Doc Node) (href : String) :
    AnchorClickResult Node :=
  let t := safeSelect doc href
  { defaultPrevented := true
  , scrolled := t.1.map (fun n => (n, ⟨"smooth", "start"⟩))
  , warnings := t.2 }

/-- A sample document for witnesses: selector "#section2" resolves to the
node named "sec2"; every other selector is valid but matches nothing. -/
def doc0 : Doc String :=
  { query := fun s => if s = "#section2" then Except.ok (some "sec2") else Except.ok none
  , queryAll := fun _ => Except.ok [] }

/-- A document whose raw query throws on every selector, modelling
syntactically invalid input. -/
def docBad : Doc Unit :=
  { query := fun s => Except.error ("SyntaxError: " ++ s)
  , queryAll := fun s => Except.error ("SyntaxError: " ++ s) }

/-! ## Mobile menu dismissal (src/main.js lines 112-119, 190-202, 225-230)

The menu's open state is the `active` class on the `#mobileMenu` node. -/

/-- Model of `window.closeMobileMenu`: when the menu node exists, remove the
`active` class; when `safeSelect` finds no menu, do nothing. -/
def closeMobileMenu (menu : Option (List String)) : Option (List String) :=
  menu.map (fun cls => classListRemove cls "active")

/-- Model of the document-wide click listener: when the click target is
contained in neither the menu nor the toggle, remove `active`. -/
def outsideClickHandler (clickInMenu clickInToggle : Bool) (cls : List String) :
    List String :=
  if !clickInMenu && !clickInToggle then classListRemove cls "active" else cls

/-- Model of `handleKeyboardNavigation`: on Escape with the menu open
(class list contains `active`), remove `active` (focus moves to the toggle,
not modelled here). -/
def handleKeyboardNavigation (key : String) (cls : List String) : List String :=
  if key = "Escape" ∧ "active" ∈ cls then classListRemove cls "active" else cls

/-! ## scrollToTop (src/main.js lines 232-242) -/

/-- The scrolling primitives the fallback chooses between. -/
inductive ScrollEffect
  | scrollToOptions (top : Nat) (behavior : String)
  | scrollToXY (x y : Nat)
deriving DecidableEq

/-- Model of `window.scrollTo({top, behavior})`: older browsers that do not
support an options object throw a TypeError, modelled as `.error`. -/
def windowScrollTo (supportsOptions : Bool) (top : Nat) (behavior : String) :
    Except String ScrollEffect :=
  if supportsOptions then .ok (.scrollToOptions top behavior)
  else .error "TypeError: options not supported"

/-- Model of `window.scrollToTop`: try the smooth options call; on a thrown
error fall back to `window.scrollTo(0, 0)`. The return type is a plain
effect — no exception escapes. -/
def scrollToTop (supportsOptions : Bool) : ScrollEffect :=
  match windowScrollTo supportsOptions 0 "smooth" with
  | .ok eff => eff
  | .error _ => .scrollToXY 0 0

/-! ## getScreenSize (src/main.js lines 245-252) -/

/-- Model of `window.getScreenSize`, as a function of `window.innerWidth`. -/
def getScreenSize (width : Nat) : String :=
  if width < 576 then "xs"
  else if width < 768 then "sm"
  else if width < 992 then "md"
  else if width < 1200 then "lg"
  else "xl"

/-! ## closest polyfill (src/main.js lines 284-293)

The polyfill walks `el = el.parentElement || el.parentNode` in a do-while
loop, testing `el.matches(s)` at each step, continuing while the next node
is non-null and an element (`nodeType === 1`). The walked chain — the
element followed by its successive parents — is finite and acyclic in a DOM
tree, so it is modelled as a list. -/

/-- A DOM node as the polyfill sees it: its `matches` predicate and its
`nodeType` (1 = element). -/
structure DomNode where
  matchesSel : String → Bool
  nodeType : Nat

/-- Model of the `Element.prototype.closest` polyfill, over the parent chain
of the receiver (receiver first). Mirrors the do-while loop: test the
current node; stop with `none` when the next node in the chain is absent or
not an element. -/
def closest (s : String) : List DomNode → Option DomNode
  | [] => none
  | el :: rest =>
    if el.matchesSel s then some el
    else
      match rest with
      | [] => none
      | p :: _ => if p.nodeType = 1 then closest s rest else none

/-- A sample parent chain of three element nodes used to instantiate the
closest-polyfill theorem: the middle node matches ".b". -/
def chain0 : List DomNode :=
  [⟨fun t => t == "#a", 1⟩, ⟨fun t => t == ".b", 1⟩, ⟨fun _ => false, 1⟩]

end SiteOficial

namespace SiteOficial

/-! ## Helper lemmas for the rate-limiting wrappers -/

/-- While the gate is closed and every call in `l` arrives strictly before the
reopening timer is due, all of `l` is dropped. -/
theorem throttleRun_closed {γ α : Type} (limit d : Nat) (l tail : List (TCall γ α))
    (h : ∀ c ∈ l, c.time < d) :
    throttleRun limit (some d) (l ++ tail) = throttleRun limit (some d) tail := by
  induction l with
  | nil => rfl
  | cons c cs ih =>
    have hc : c.time < d := h c (List.mem_cons_self c cs)
    have hnd : ¬ d ≤ c.time := by omega
    simp only [List.cons_append, throttleRun, throttleStep, if_neg hnd]
    exact ih (fun x hx => h x (List.mem_cons_of_mem c hx))

/-- Claim C1: for every function `fn` and limit `L`, the wrapper returned by
`throttle(fn, L)`, when called repeatedly within a span shorter than `L`
(first call `c0`, later burst calls `rest` all before `c0.time + L`), invokes
`fn` exactly once — on the first call, at that call's own timestamp
(synchronously), with that call's arguments and invocation context — and a
call `c1` made once `L` has elapsed since the gate closed invokes `fn`
again. -/
theorem throttle_limits_to_one_call_per_window {γ α : Type} (limit : Nat)
    (c0 : TCall γ α) (rest : List (TCall γ α)) (c1 : TCall γ α)
    (hrest : ∀ c ∈ rest, c.time < c0.time + limit)
    (hc1 : c0.time + limit ≤ c1.time) :
    throttleRun limit none ((c0 :: rest) ++ [c1]) = [c0, c1] := by
  have h0 : throttleRun limit none ((c0 :: rest) ++ [c1])
      = c0 :: throttleRun limit (some (c0.time + limit)) (rest ++ [c1]) := by
    simp [throttleRun, throttleStep]
  rw [h0, throttleRun_closed limit (c0.time + limit) rest [c1] hrest]
  simp [throttleRun, throttleStep, if_pos hc1]

/-- Witness for C1: with limit 10, a burst at times 0, 3, 9 delivers only the
first call (time 0, context `()`, argument 1); a further call at time 10
(once the 10ms gate has elapsed) is delivered again. -/
theorem throttle_limits_to_one_call_per_window_witness :
    throttleRun 10 none
        (((⟨0, (), 1⟩ : TCall Unit Nat) :: [⟨3, (), 2⟩, ⟨9, (), 3⟩]) ++ [⟨10, (), 4⟩])
      = [⟨0, (), 1⟩, ⟨10, (), 4⟩] :=
  throttle_limits_to_one_call_per_window 10 ⟨0, (), 1⟩ [⟨3, (), 2⟩, ⟨9, (), 3⟩]
    ⟨10, (), 4⟩ (by decide) (by decide)

/-- Claim C2: for every function `fn` and wait `w`, the wrapper returned by
`debounce(fn, w)`, when called `n ≥ 1` times (nondecreasing timestamps)
within a span shorter than `w` (every later call before `c0.time + w`),
invokes `fn` exactly once, at time `w` after the final call (hence no
earlier than `w` after it), with the arguments of the last call only. -/
theorem debounce_delivers_last_call_once {α : Type} (wait : Nat)
    (c0 : DCall α) (rest : List (DCall α))
    (hmono : List.Chain' (fun a b => a.time ≤ b.time) (c0 :: rest))
    (hspan : ∀ c ∈ rest, c.time < c0.time + wait) :
    debounceRun wait none (c0 :: rest)
      = [(((c0 :: rest).getLast (List.cons_ne_nil c0 rest)).time + wait,
          ((c0 :: rest).getLast (List.cons_ne_nil c0 rest)).args)] := by
  induction rest generalizing c0 with
  | nil => simp [debounceRun, debounceStep]
  | cons c1 rest2 ih =>
    have h01 : c0.time ≤ c1.time := (List.chain'_cons.mp hmono).1
    have hc1 : c1.time < c0.time + wait := hspan c1 (List.mem_cons_self c1 rest2)
    have hkey : debounceRun wait none (c0 :: c1 :: rest2)
        = debounceRun wait none (c1 :: rest2) := by
      have hnd : ¬ c0.time + wait ≤ c1.time := by omega
      simp [debounceRun, debounceStep, if_neg hnd]
    rw [hkey,
      ih c1 (List.chain'_cons.mp hmono).2
        (fun c hc => by have := hspan c (List.mem_cons_of_mem c1 hc); omega)]
    have hne : c1 :: rest2 ≠ [] := List.cons_ne_nil c1 rest2
    rw [List.getLast_cons hne]

/-- Witness for C2: with wait 100, calls at times 0, 50, 99 (arguments 1, 2,
3) deliver exactly one invocation, at time 199 = 99 + 100, with the last
call's argument 3. -/
theorem debounce_delivers_last_call_once_witness :
    debounceRun 100 none [⟨0, 1⟩, ⟨50, 2⟩, (⟨99, 3⟩ : DCall Nat)] = [(199, 3)] :=
  (debounce_delivers_last_call_once 100 ⟨0, 1⟩ [⟨50, 2⟩, ⟨99, 3⟩]
    (by simp [List.chain'_cons]) (by decide)).trans (by decide)

/-! ## Lazy image loader lemmas -/

/-- A non-intersecting entry leaves the image unchanged. -/
theorem onIntersect_false (img : LazyImg) : onIntersect img false = img := by
  simp [onIntersect]

/-- Entries delivered to an unobserved image leave it unchanged. -/
theorem observeRun_unobserved (img : LazyImg) (h : img.observed = false) :
    ∀ es : List Bool, observeRun img es = img := by
  intro es
  induction es with
  | nil => rfl
  | cons e es ih => simp [observeRun, onIntersect, h, ih]

/-- Processing entries in two stages equals processing them in one. -/
theorem observeRun_append (img : LazyImg) (l1 l2 : List Bool) :
    observeRun img (l1 ++ l2) = observeRun (observeRun img l1) l2 := by
  induction l1 generalizing img with
  | nil => rfl
  | cons e es ih => simp [observeRun, ih]

/-- Counterexample to claim C3 as stated: `emptyLazyImg` is an observed image
carrying a deferred-source attribute (`data-src=""`), yet its first
intersection copies nothing into `src`, keeps the `lazy` class, and leaves
the element observed (so observation can refire): the `if (src)` truthiness
guard rejects the empty string. -/
theorem lazy_empty_dataSrc_not_upgraded :
    emptyLazyImg.dataSrc = some "" ∧ emptyLazyImg.observed = true
      ∧ "lazy" ∈ emptyLazyImg.classes
      ∧ observeRun emptyLazyImg [true] = emptyLazyImg
      ∧ (observeRun emptyLazyImg [true]).src = none
      ∧ (observeRun emptyLazyImg [true]).observed = true :=
  ⟨rfl, rfl, by decide, rfl, rfl, rfl⟩

/-- Claim C3 (amended: the deferred-source attribute must be nonempty): for
every observed image whose `data-src` holds a nonempty value `s`, on its
first intersection — after any number of non-intersecting entries — the
handler copies `s` into `src`, removes the `lazy` class, and unobserves the
element; all later entries (`post`, arbitrary) leave it unchanged, so the
upgrade fires at most once and observation never refires for that image. -/
theorem lazy_image_upgraded_once (img : LazyImg) (s : String)
    (pre post : List Bool)
    (hobs : img.observed = true) (hsrc : img.dataSrc = some s) (hne : s ≠ "")
    (hpre : ∀ b ∈ pre, b = false) :
    observeRun img (pre ++ true :: post)
      = { img with src := some s
                 , classes := classListRemove img.classes "lazy"
                 , observed := false } := by
  have hfirst : observeRun img pre = img := by
    induction pre with
    | nil => rfl
    | cons b bs ih =>
      have hb : b = false := hpre b (List.mem_cons_self b bs)
      rw [observeRun, hb, onIntersect_false]
      exact ih (fun x hx => hpre x (List.mem_cons_of_mem b hx))
  rw [observeRun_append, hfirst, observeRun]
  have hup : onIntersect img true
      = { img with src := some s
                 , classes := classListRemove img.classes "lazy"
                 , observed := false } := by
    simp [onIntersect, hobs, hsrc, hne]
  rw [hup]
  exact observeRun_unobserved _ rfl post

/-- Witness for C3 (amended): `img0` (data-src "hero.jpg", classes
["lazy", "photo"], observed), after a non-intersecting entry, an
intersection, and two further entries, ends upgraded exactly once: src
"hero.jpg", class list ["photo"], unobserved. -/
theorem lazy_image_upgraded_once_witness :
    observeRun img0 ([false] ++ true :: [true, false])
      = { img0 with src := some "hero.jpg"
                  , classes := classListRemove img0.classes "lazy"
                  , observed := false } :=
  lazy_image_upgraded_once img0 "hero.jpg" [false] [true, false]
    rfl rfl (by decide) (by decide)

/-! ## Scroll handler lemmas -/

/-- Adding a token makes it a member of the class list. -/
theorem mem_classListAdd (cls : List String) (t : String) :
    t ∈ classListAdd cls t := by
  by_cases h : t ∈ cls
  · simp [classListAdd, h]
  · simp [classListAdd, h]

/-- Removing a token eliminates it from the class list. -/
theorem not_mem_classListRemove (cls : List String) (t : String) :
    t ∉ classListRemove cls t := by
  simp [classListRemove, List.mem_filter]

/-- Claim C4: for every invocation of the throttled scroll handler with
vertical offset `y`: the header gets the elevated style exactly when
`y > 100` and the base style otherwise; the scroll-to-top control carries
the `visible` class exactly when `y > 500`; and on any starting state, the
sequence of offsets 0, 150, 600, 0 yields base header + hidden button, then
elevated header, then visible button, then reverts both. -/
theorem handleScroll_threshold_rules (y : Nat) (ui : ScrollUI) :
    ((100 < y →
        (handleScroll y ui).header = ⟨elevatedBackground, "blur(10px)", "blur(10px)"⟩)
      ∧ (y ≤ 100 → (handleScroll y ui).header = ⟨baseBackground, "none", "none"⟩)
      ∧ (500 < y → "visible" ∈ (handleScroll y ui).scrollTopClasses)
      ∧ (y ≤ 500 → "visible" ∉ (handleScroll y ui).scrollTopClasses))
    ∧ ((handleScroll 0 ui).header = ⟨baseBackground, "none", "none"⟩
      ∧ "visible" ∉ (handleScroll 0 ui).scrollTopClasses
      ∧ (handleScroll 150 ui).header = ⟨elevatedBackground, "blur(10px)", "blur(10px)"⟩
      ∧ "visible" ∈ (handleScroll 600 ui).scrollTopClasses
      ∧ (handleScroll 0 (handleScroll 600 (handleScroll 150 ui))).header
          = ⟨baseBackground, "none", "none"⟩
      ∧ "visible" ∉
          (handleScroll 0 (handleScroll 600 (handleScroll 150 ui))).scrollTopClasses) := by
  refine ⟨⟨?_, ?_, ?_, ?_⟩, ?_, ?_, ?_, ?_, ?_, ?_⟩
  · intro h
    simp [handleScroll, if_pos h]
  · intro h
    have : ¬ 100 < y := by omega
    simp [handleScroll, if_neg this]
  · intro h
    simp only [handleScroll, if_pos h]
    exact mem_classListAdd _ _
  · intro h
    have : ¬ 500 < y := by omega
    simp only [handleScroll, if_neg this]
    exact not_mem_classListRemove _ _
  · simp [handleScroll]
  · simp only [handleScroll]
    norm_num
    exact not_mem_classListRemove _ _
  · simp [handleScroll]
  · simp only [handleScroll]
    norm_num
    exact mem_classListAdd _ _
  · simp [handleScroll]
  · simp only [handleScroll]
    norm_num
    exact not_mem_classListRemove _ _

/-- Witness for C4: at offset 150 on the sample state `ui0`, the header is
in the elevated style. -/
theorem handleScroll_threshold_rules_witness :
    (handleScroll 150 ui0).header
      = ⟨elevatedBackground, "blur(10px)", "blur(10px)"⟩ :=
  (handleScroll_threshold_rules 150 ui0).1.1 (by decide)

/-- Claim C7: `getScreenSize` returns "xs" when width < 576, "sm" when
576 ≤ width < 768, "md" when 768 ≤ width < 992, "lg" when
992 ≤ width < 1200, and "xl" when width ≥ 1200; in particular "xs" at 575,
"sm" at 767, "md" at 991, "lg" at 1199, and "xl" at 1200. -/
theorem getScreenSize_buckets (w : Nat) :
    ((w < 576 → getScreenSize w = "xs")
      ∧ (576 ≤ w → w < 768 → getScreenSize w = "sm")
      ∧ (768 ≤ w → w < 992 → getScreenSize w = "md")
      ∧ (992 ≤ w → w < 1200 → getScreenSize w = "lg")
      ∧ (1200 ≤ w → getScreenSize w = "xl"))
    ∧ (getScreenSize 575 = "xs" ∧ getScreenSize 767 = "sm"
      ∧ getScreenSize 991 = "md" ∧ getScreenSize 1199 = "lg"
      ∧ getScreenSize 1200 = "xl") := by
  refine ⟨⟨?_, ?_, ?_, ?_, ?_⟩, by decide, by decide, by decide, by decide, by decide⟩
  · intro h
    simp [getScreenSize, if_pos h]
  · intro h1 h2
    simp only [getScreenSize]
    rw [if_neg (by omega), if_pos h2]
  · intro h1 h2
    simp only [getScreenSize]
    rw [if_neg (by omega), if_neg (by omega), if_pos h2]
  · intro h1 h2
    simp only [getScreenSize]
    rw [if_neg (by omega), if_neg (by omega), if_neg (by omega), if_pos h2]
  · intro h
    simp only [getScreenSize]
    rw [if_neg (by omega), if_neg (by omega), if_neg (by omega), if_neg (by omega)]

/-- Witness for C7: at width 575 the bucket is "xs". -/
theorem getScreenSize_buckets_witness : getScreenSize 575 = "xs" :=
  (getScreenSize_buckets 575).1.1 (by decide)

/-! ## Safe query helpers and anchor clicks -/

/-- Claim C6: `safeSelect` and `safeSelectAll` are total (no exception
escapes): when the raw query throws they log a warning and return `null`
(resp. an empty collection); otherwise they return the query result
unchanged with nothing logged. -/
theorem safeSelect_never_throws {Node : Type} (doc : Doc Node) (s : String) :
    (∀ e, doc.query s = .error e →
        safeSelect doc s = (none, ["Invalid selector: " ++ s]))
    ∧ (∀ r, doc.query s = .ok r → safeSelect doc s = (r, []))
    ∧ (∀ e, doc.queryAll s = .error e →
        safeSelectAll doc s = ([], ["Invalid selector: " ++ s]))
    ∧ (∀ r, doc.queryAll s = .ok r → safeSelectAll doc s = (r, [])) := by
  refine ⟨?_, ?_, ?_, ?_⟩ <;> intro x hx <;> simp [safeSelect, safeSelectAll, hx]

/-- Witness for C6: on `docBad`, whose raw query throws on the selector
"div[", `safeSelect` returns `null` together with the logged warning. -/
theorem safeSelect_never_throws_witness :
    safeSelect docBad "div[" = (none, ["Invalid selector: div["]) :=
  (safeSelect_never_throws docBad "div[").1 "SyntaxError: div[" rfl

/-- Claim C5: for every anchor with an href starting with "#", a click
suppresses default navigation; when the safe selector resolves the href to
a target node, the handler smooth-scrolls it into view aligned to the top
(behavior "smooth", block "start"); when the target is missing, no scroll
happens. -/
theorem anchor_click_behavior {Node : Type} (doc : Doc Node) (href : String)
    (_h : ∃ t, href = "#" ++ t) :
    (anchorClickHandler doc href).defaultPrevented = true
    ∧ (∀ n, (safeSelect doc href).1 = some n →
        (anchorClickHandler doc href).scrolled = some (n, ⟨"smooth", "start"⟩))
    ∧ ((safeSelect doc href).1 = none →
        (anchorClickHandler doc href).scrolled = none) := by
  refine ⟨rfl, ?_, ?_⟩
  · intro n hn
    simp [anchorClickHandler, hn]
  · intro hn
    simp [anchorClickHandler, hn]

/-- Witness for C5: on `doc0`, clicking the anchor with href "#section2"
scrolls the node "sec2" into view smoothly, aligned to the start. -/
theorem anchor_click_behavior_witness :
    (anchorClickHandler doc0 "#section2").scrolled
      = some ("sec2", ⟨"smooth", "start"⟩) :=
  (anchor_click_behavior doc0 "#section2" ⟨"section2", rfl⟩).2.1 "sec2" (by decide)

/-! ## Mobile menu dismissal lemmas -/

/-- Removing a token that is not present leaves the class list unchanged. -/
theorem classListRemove_not_mem (cls : List String) (t : String) (h : t ∉ cls) :
    classListRemove cls t = cls := by
  unfold classListRemove
  apply List.filter_eq_self.mpr
  intro a ha
  exact decide_eq_true (by rintro rfl; exact h ha)

/-- Removing a token twice equals removing it once. -/
theorem classListRemove_idem (cls : List String) (t : String) :
    classListRemove (classListRemove cls t) t = classListRemove cls t :=
  classListRemove_not_mem _ _ (not_mem_classListRemove cls t)

/-- Removing one token does not affect membership of any other token. -/
theorem mem_classListRemove_of_ne (cls : List String) (t c : String) (h : c ≠ t) :
    c ∈ classListRemove cls t ↔ c ∈ cls := by
  simp [classListRemove, List.mem_filter, h]

/-- Claim C8: `closeMobileMenu` is idempotent, and on an already-closed menu
(no `active` class) it leaves the class list unchanged; the outside-click
and escape-key dismissal paths are likewise idempotent and no-ops on a
closed menu, and each of the three only ever removes the `active` class
(every other token's membership is preserved). -/
theorem closeMobileMenu_idempotent (menu : Option (List String))
    (cls : List String) (b1 b2 : Bool) (key : String) :
    closeMobileMenu (closeMobileMenu menu) = closeMobileMenu menu
    ∧ ("active" ∉ cls → closeMobileMenu (some cls) = some cls)
    ∧ outsideClickHandler b1 b2 (outsideClickHandler b1 b2 cls)
        = outsideClickHandler b1 b2 cls
    ∧ ("active" ∉ cls → outsideClickHandler b1 b2 cls = cls)
    ∧ handleKeyboardNavigation key (handleKeyboardNavigation key cls)
        = handleKeyboardNavigation key cls
    ∧ ("active" ∉ cls → handleKeyboardNavigation key cls = cls)
    ∧ (outsideClickHandler b1 b2 cls = cls
        ∨ outsideClickHandler b1 b2 cls = classListRemove cls "active")
    ∧ (handleKeyboardNavigation key cls = cls
        ∨ handleKeyboardNavigation key cls = classListRemove cls "active")
    ∧ (∀ c, c ≠ "active" → (c ∈ classListRemove cls "active" ↔ c ∈ cls)) := by
  refine ⟨?_, ?_, ?_, ?_, ?_, ?_, ?_, ?_, ?_⟩
  · cases menu with
    | none => rfl
    | some cls2 => simp [closeMobileMenu, classListRemove_idem]
  · intro h
    simp [closeMobileMenu, classListRemove_not_mem cls "active" h]
  · by_cases hb : (!b1 && !b2) = true
    · simp [outsideClickHandler, hb, classListRemove_idem]
    · simp [outsideClickHandler, hb]
  · intro h
    by_cases hb : (!b1 && !b2) = true
    · simp [outsideClickHandler, hb, classListRemove_not_mem cls "active" h]
    · simp [outsideClickHandler, hb]
  · by_cases hk : key = "Escape" ∧ "active" ∈ cls
    · have h2 := not_mem_classListRemove cls "active"
      simp [handleKeyboardNavigation, hk, h2]
    · simp [handleKeyboardNavigation, hk]
  · intro h
    by_cases hk : key = "Escape" ∧ "active" ∈ cls
    · exact absurd hk.2 h
    · simp [handleKeyboardNavigation, hk]
  · by_cases hb : (!b1 && !b2) = true
    · right
      simp [outsideClickHandler, hb]
    · left
      simp [outsideClickHandler, hb]
  · by_cases hk : key = "Escape" ∧ "active" ∈ cls
    · right
      simp [handleKeyboardNavigation, hk]
    · left
      simp [handleKeyboardNavigation, hk]
  · intro c hc
    exact mem_classListRemove_of_ne cls "active" c hc

/-- Witness for C8: closing a menu whose class list is ["menu"] (already
closed: no `active` token) leaves it unchanged. -/
theorem closeMobileMenu_idempotent_witness :
    closeMobileMenu (some ["menu"]) = some ["menu"] :=
  (closeMobileMenu_idempotent (some ["menu"]) ["menu"] false false "Escape").2.1
    (by decide)

/-! ## closest polyfill -/

/-- Claim C9: the `closest` shim, on a finite acyclic parent chain of
element nodes, terminates (it is a total structurally recursive function)
and returns the first node of the chain — the element itself or an
ancestor — matching the selector, or `none` when the top of the tree is
reached without a match. -/
theorem closest_finds_first_match (s : String) (chain : List DomNode)
    (h : ∀ n ∈ chain, n.nodeType = 1) :
    closest s chain = chain.find? (fun n => n.matchesSel s) := by
  induction chain with
  | nil => rfl
  | cons el rest ih =>
    cases hm : el.matchesSel s with
    | true => simp [closest, List.find?, hm]
    | false =>
      have hrest : ∀ n ∈ rest, n.nodeType = 1 :=
        fun n hn => h n (List.mem_cons_of_mem el hn)
      cases rest with
      | nil => simp [closest, List.find?, hm]
      | cons p rest2 =>
        have hp : p.nodeType = 1 := h p (by simp)
        have hstep : closest s (el :: p :: rest2) = closest s (p :: rest2) := by
          rw [closest, if_neg (by simp [hm]), if_pos hp]
        rw [hstep, ih hrest]
        conv_rhs => rw [List.find?]
        rw [hm]

/-- Witness for C9: on the three-element chain `chain0`, the shim returns
the first node matching ".b" — the chain's second node. -/
theorem closest_finds_first_match_witness :
    closest ".b" chain0 = chain0.find? (fun n => n.matchesSel ".b") :=
  closest_finds_first_match ".b" chain0 (by decide)

/-! ## scrollToTop -/

/-- Claim C10: `scrollToTop` never lets an exception escape (its result is a
plain scroll effect): when the options-object scroll call throws it falls
back to an immediate scroll to (0, 0), and when it succeeds that smooth
scroll is the effect performed. -/
theorem scrollToTop_never_throws (b : Bool) :
    (∀ e, windowScrollTo b 0 "smooth" = .error e →
        scrollToTop b = .scrollToXY 0 0)
    ∧ (∀ eff, windowScrollTo b 0 "smooth" = .ok eff → scrollToTop b = eff) := by
  refine ⟨?_, ?_⟩ <;> intro x hx <;> simp [scrollToTop, hx]

/-- Witness for C10: on a browser without options-object support (the call
throws), `scrollToTop` performs the fallback scroll to (0, 0). -/
theorem scrollToTop_never_throws_witness :
    scrollToTop false = ScrollEffect.scrollToXY 0 0 :=
  (scrollToTop_never_throws false).1 "TypeError: options not supported" rfl

end SiteOficial
